import Mathlib

/-!
Shallow embedding of the Egypt monthly inflation forecaster
(`calculate_forecast.py`): fixed lag weights, lag-vector construction,
the single-step forecast formula, the 6-step recursive forecast loop
with uncertainty bands, and the combined (actual ++ forecast) series.

Numeric values are modelled as exact rationals; the square-root based
uncertainty band is modelled over the reals.
-/

namespace EgyptForecast

/-- The hard-coded monthly inflation values, June 2025 .. December 2025,
oldest first (`MONTHLY_INFLATION` in the source). Dates are modelled as
month indices 0..6 counted from June 2025. -/
def MONTHLY_INFLATION : List ℚ := [13.9, 13.1, 12.0, 11.7, 12.5, 12.3, 12.3]

/-- Sentiment lag weights (lags 0..8, most recent first). -/
def SENTIMENT_WEIGHTS : List ℚ := [1.00, 0.70, 0.49, 0.34, 0.24, 0.17, 0.12, 0.08, 0.06]

/-- Inflation lag weights (lags 0..3, most recent first). -/
def INFLATION_WEIGHTS : List ℚ := [0.60, 0.25, 0.10, 0.05]

/-- Scale factor applied to the summed sentiment-weighted term. -/
def SCALE_FACTOR : ℚ := 0.03

/-- Intercept added unconditionally. -/
def INTERCEPT : ℚ := 0.5

/-- Embedding of `get_lags(series, n_lags)`: if the series (oldest first)
has at least `n_lags` values, take the last `n_lags` and reverse them
(most-recent-first); otherwise return `n_lags` copies of the last value,
or of `0` when the series is empty. -/
def get_lags (series : List ℚ) (n_lags : ℕ) : List ℚ :=
  if n_lags ≤ series.length then
    (series.drop (series.length - n_lags)).reverse
  else
    match series.getLast? with
    | some last_val => List.replicate n_lags last_val
    | none => List.replicate n_lags 0

/-- Embedding of `calculate_forecast(sentiment_lags, inflation_lags)`:
intercept plus scaled weighted sentiment lags plus weighted inflation
lags, with `zip` truncating at the shorter list exactly as in the source. -/
def calculate_forecast (sentiment_lags inflation_lags : List ℚ) : ℚ :=
  let sentiment_effect :=
    ((SENTIMENT_WEIGHTS.zip sentiment_lags).map (fun ws => ws.1 * ws.2)).sum * SCALE_FACTOR
  let inflation_momentum :=
    ((INFLATION_WEIGHTS.zip inflation_lags).map (fun wi => wi.1 * wi.2)).sum
  INTERCEPT + sentiment_effect + inflation_momentum

/-- Row kind tag: `'actual'` or `'forecast'` in the source. -/
inductive RowType where
  | actual
  | forecast
deriving DecidableEq, Repr

/-- One observation row of the output series. `date` is a month index
(0 = June 2025); actual rows carry `none` bounds (NaN in the source). -/
structure Row where
  date : ℕ
  inflation : ℚ
  lower_bound : Option ℝ
  upper_bound : Option ℝ
  type : RowType
  horizon : ℕ

/-- Embedding of `uncertainty = 0.3 * np.sqrt(month_ahead)`. -/
noncomputable def uncertainty (month_ahead : ℕ) : ℝ :=
  0.3 * Real.sqrt month_ahead

/-- Lower bound emitted for a forecast of value `v` at horizon `h`. -/
noncomputable def lowerBound (v : ℚ) (h : ℕ) : ℝ :=
  (v : ℝ) - 1.96 * uncertainty h

/-- Upper bound emitted for a forecast of value `v` at horizon `h`. -/
noncomputable def upperBound (v : ℚ) (h : ℕ) : ℝ :=
  (v : ℝ) + 1.96 * uncertainty h

/-- Month index of the last historical observation (December 2025). -/
def LAST_DATE : ℕ := 6

/-- Embedding of the body of the `for month_ahead in range(1, 7)` loop:
`current_sentiment` is `sentiment_lags[0]` of the initial lags (never
updated in the source); each step prepends it to the sentiment lags and
drops the oldest, computes the forecast, then prepends the forecast to
the inflation lags and drops the oldest. The first argument counts the
remaining iterations. -/
noncomputable def forecastLoop (current_sentiment : ℚ) :
    ℕ → ℕ → List ℚ → List ℚ → List Row
  | 0, _, _, _ => []
  | n + 1, month_ahead, forecasted_sentiment, forecasted_inflation =>
    let fs := current_sentiment :: forecasted_sentiment.dropLast
    let forecast_value := calculate_forecast fs forecasted_inflation
    let fi := forecast_value :: forecasted_inflation.dropLast
    { date := LAST_DATE + month_ahead
      inflation := forecast_value
      lower_bound := some (lowerBound forecast_value month_ahead)
      upper_bound := some (upperBound forecast_value month_ahead)
      type := RowType.forecast
      horizon := month_ahead } ::
      forecastLoop current_sentiment n (month_ahead + 1) fs fi

/-- The six forecast rows generated from initial lag vectors
(`forecasts` in the source, as a function of the initial lags). -/
noncomputable def forecastRows (sentiment_lags inflation_lags : List ℚ) : List Row :=
  forecastLoop (sentiment_lags.headD 0) 6 1 sentiment_lags inflation_lags

/-- The historical rows: hard-coded inflation values with `horizon = 0`,
`type = actual` and NaN (here `none`) bounds. -/
def actualRows : List Row :=
  (List.zip (List.range 7) MONTHLY_INFLATION).map (fun di =>
    { date := di.1, inflation := di.2, lower_bound := none, upper_bound := none,
      type := RowType.actual, horizon := 0 })

/-- Stable sort of rows by date, modelling the final date sort of the
combined frame in the source. -/
def sortByDate (rows : List Row) : List Row :=
  List.insertionSort (fun a b => a.date ≤ b.date) rows

/-- The combined output series: historical rows plus forecast rows,
sorted by date. The sentiment series merged from the fetched data is a
parameter; the inflation series is the hard-coded one. -/
noncomputable def combined (sentSeries : List ℚ) : List Row :=
  sortByDate (actualRows ++ forecastRows (get_lags sentSeries 9) (get_lags MONTHLY_INFLATION 4))

/-- Helper: sum of products over a zipped pair of lists equals the sum of
the pointwise `zipWith` products. -/
theorem sum_zip_map_mul (l₁ l₂ : List ℚ) :
    ((l₁.zip l₂).map (fun p => p.1 * p.2)).sum
      = (List.zipWith (fun w x => w * x) l₁ l₂).sum := by
  induction l₁ generalizing l₂ with
  | nil => simp
  | cons a t ih => cases l₂ <;> simp [ih]

/-- Every row emitted by the forecast loop carries bounds computed from
its own value and horizon, the forecast tag, a horizon at least the
starting one, and a date equal to the last historical date plus horizon. -/
theorem forecastLoop_mem (cs : ℚ) :
    ∀ (n h : ℕ) (fs fi : List ℚ), ∀ r ∈ forecastLoop cs n h fs fi,
      r.lower_bound = some (lowerBound r.inflation r.horizon) ∧
      r.upper_bound = some (upperBound r.inflation r.horizon) ∧
      r.type = RowType.forecast ∧
      h ≤ r.horizon ∧
      r.date = LAST_DATE + r.horizon := by
  intro n
  induction n with
  | zero => intro h fs fi r hr; simp [forecastLoop] at hr
  | succ k ih =>
    intro h fs fi r hr
    simp only [forecastLoop, List.mem_cons] at hr
    rcases hr with rfl | hr
    · exact ⟨rfl, rfl, rfl, le_refl _, rfl⟩
    · obtain ⟨b1, b2, b3, b4, b5⟩ := ih (h + 1) _ _ r hr
      exact ⟨b1, b2, b3, by omega, b5⟩

/-- The loop always emits exactly six rows. -/
theorem forecastRows_length (s p : List ℚ) : (forecastRows s p).length = 6 := by
  simp [forecastRows, forecastLoop]

/-- The six emitted horizons are 1..6 in order. -/
theorem forecastRows_map_horizon (s p : List ℚ) :
    (forecastRows s p).map Row.horizon = [1, 2, 3, 4, 5, 6] := by
  simp [forecastRows, forecastLoop]

/-- The six emitted dates are the months 7..12 (one to six months past
the last historical month, index 6). -/
theorem forecastRows_map_date (s p : List ℚ) :
    (forecastRows s p).map Row.date = [7, 8, 9, 10, 11, 12] := by
  simp [forecastRows, forecastLoop, LAST_DATE]

/-- Historical rows are tagged actual with horizon 0 and no bounds. -/
theorem actualRows_mem (r : Row) (hr : r ∈ actualRows) :
    r.type = RowType.actual ∧ r.horizon = 0 ∧
    r.lower_bound = none ∧ r.upper_bound = none := by
  simp only [actualRows, List.mem_map] at hr
  obtain ⟨di, _, rfl⟩ := hr
  exact ⟨rfl, rfl, rfl, rfl⟩

/-- The dates of the historical rows are the months 0..6. -/
theorem actualRows_map_date : actualRows.map Row.date = [0, 1, 2, 3, 4, 5, 6] := by
  simp [actualRows, MONTHLY_INFLATION, List.range_succ]

/-- C1: for every 9-element sentiment lag vector and 4-element inflation
lag vector (most-recent-first), `calculate_forecast` returns exactly
`INTERCEPT + SCALE_FACTOR * Σ SENTIMENT_WEIGHTS[i]*s[i] + Σ INFLATION_WEIGHTS[j]*p[j]`,
a pure deterministic function of the two lag vectors only. -/
theorem C1_calculate_forecast_formula
    (s0 s1 s2 s3 s4 s5 s6 s7 s8 p0 p1 p2 p3 : ℚ) :
    calculate_forecast [s0, s1, s2, s3, s4, s5, s6, s7, s8] [p0, p1, p2, p3] =
      INTERCEPT + SCALE_FACTOR *
        (1.00 * s0 + 0.70 * s1 + 0.49 * s2 + 0.34 * s3 + 0.24 * s4
          + 0.17 * s5 + 0.12 * s6 + 0.08 * s7 + 0.06 * s8)
      + (0.60 * p0 + 0.25 * p1 + 0.10 * p2 + 0.05 * p3) := by
  simp only [calculate_forecast, SENTIMENT_WEIGHTS, INFLATION_WEIGHTS,
    List.zip_cons_cons, List.zip_nil_right, List.map_cons, List.map_nil,
    List.sum_cons, List.sum_nil]
  ring

/-- C6: for a sentiment series of length exactly 1 with value `s`, the
padded 9-length lag vector is nine copies of `s`; the construction
never fails on short series. -/
theorem C6_singleton_padding (s : ℚ) :
    get_lags [s] 9 = List.replicate 9 s := by
  simp [get_lags]

/-- C10: for every `n_lags ≥ 1`, `get_lags` on an empty series returns
`n_lags` copies of `0` — the empty-series fallback constant is `0`, not
the `5.0` sentiment default used elsewhere in the pipeline. -/
theorem C10_empty_series_fallback_zero (n : ℕ) (h : 1 ≤ n) :
    get_lags [] n = List.replicate n 0 := by
  have : ¬ n ≤ ([] : List ℚ).length := by simpa using by omega
  simp [get_lags, this]

/-- Witness for C10 at the two lag lengths used by the pipeline. -/
theorem C10_empty_series_fallback_zero_witness :
    get_lags [] 9 = List.replicate 9 0 ∧ get_lags [] 4 = List.replicate 4 0 :=
  ⟨C10_empty_series_fallback_zero 9 (by norm_num),
   C10_empty_series_fallback_zero 4 (by norm_num)⟩

/-- C9: `calculate_forecast` cannot error — for all numeric lag-vector
inputs of any length it is total, performs no division or out-of-bounds
access, and returns the intercept plus the scaled weighted sentiment sum
plus the weighted inflation sum (sums truncating at the shorter list). -/
theorem C9_calculate_forecast_total (s p : List ℚ) :
    calculate_forecast s p =
      INTERCEPT
        + SCALE_FACTOR * (List.zipWith (fun w x => w * x) SENTIMENT_WEIGHTS s).sum
        + (List.zipWith (fun w x => w * x) INFLATION_WEIGHTS p).sum := by
  simp only [calculate_forecast, sum_zip_map_mul]
  ring

/-- C2: for every pair of initial lag vectors (sentiment general,
inflation 4-element), the horizon-2 value emitted by the loop equals
`calculate_forecast` applied to the sentiment lag vector refreshed twice
(once per completed step) by prepending the frozen most-recent real
sentiment value and dropping the oldest lag, and to the inflation lag
vector `[value_1, p0, p1, p2]` where `value_1` is the horizon-1
forecast — step 2 is determined purely by step 1's output plus the
initial state. -/
theorem C2_step2_recursion (s : List ℚ) (p0 p1 p2 p3 : ℚ) :
    ((forecastRows s [p0, p1, p2, p3]).map Row.inflation)[1]? =
      some (calculate_forecast
        (s.headD 0 :: (s.headD 0 :: s.dropLast).dropLast)
        (calculate_forecast (s.headD 0 :: s.dropLast) [p0, p1, p2, p3]
          :: [p0, p1, p2])) := by
  simp [forecastRows, forecastLoop]

/-- C3 counterexample: the nine sentiment weights sum to 3.20, not 3.70
as the spec's example asserts; consequently the inflation momentum term
is 12.29, not 12.305, and the step-1 forecast on sentiment lags all 5.0
and inflation lags [12.3, 12.3, 12.5, 11.7] is exactly 13.27, not
approximately 13.36. -/
theorem C3_counterexample :
    SENTIMENT_WEIGHTS.sum = 3.20 ∧
    SENTIMENT_WEIGHTS.sum ≠ 3.70 ∧
    ((forecastRows [5, 5, 5, 5, 5, 5, 5, 5, 5] [12.3, 12.3, 12.5, 11.7]).map
        Row.inflation)[0]? = some (13.27 : ℚ) ∧
    (13.27 : ℚ) ≠ 13.36 := by
  refine ⟨by norm_num [SENTIMENT_WEIGHTS], by norm_num [SENTIMENT_WEIGHTS], ?_, by norm_num⟩
  norm_num [forecastRows, forecastLoop, calculate_forecast,
    SENTIMENT_WEIGHTS, INFLATION_WEIGHTS, SCALE_FACTOR, INTERCEPT,
    List.getElem?_cons_zero, List.getElem?_cons_succ]

/-- C3 amended: with initial inflation lags [12.3, 12.3, 12.5, 11.7] and
all nine sentiment lags 5.0, the step-1 forecast equals
`0.5 + 0.03*5.0*(sum of the 9 sentiment weights = 3.20) + 12.29 = 13.27`
exactly, and step 2 then uses inflation lags [13.27, 12.3, 12.3, 12.5]
with sentiment lags unchanged. -/
theorem C3_amended_example :
    ((forecastRows [5, 5, 5, 5, 5, 5, 5, 5, 5] [12.3, 12.3, 12.5, 11.7]).map
        Row.inflation)[0]? = some (13.27 : ℚ) ∧
    (13.27 : ℚ) = INTERCEPT + SCALE_FACTOR * (5 * SENTIMENT_WEIGHTS.sum)
      + (0.60 * 12.3 + 0.25 * 12.3 + 0.10 * 12.5 + 0.05 * 11.7) ∧
    SENTIMENT_WEIGHTS.sum = 3.20 ∧
    (0.60 * 12.3 + 0.25 * 12.3 + 0.10 * 12.5 + 0.05 * 11.7 : ℚ) = 12.29 ∧
    ((forecastRows [5, 5, 5, 5, 5, 5, 5, 5, 5] [12.3, 12.3, 12.5, 11.7]).map
        Row.inflation)[1]? =
      some (calculate_forecast [5, 5, 5, 5, 5, 5, 5, 5, 5]
        [13.27, 12.3, 12.3, 12.5]) := by
  refine ⟨?_, by norm_num [INTERCEPT, SCALE_FACTOR, SENTIMENT_WEIGHTS],
    by norm_num [SENTIMENT_WEIGHTS], by norm_num, ?_⟩ <;>
    norm_num [forecastRows, forecastLoop, calculate_forecast,
      SENTIMENT_WEIGHTS, INFLATION_WEIGHTS, SCALE_FACTOR, INTERCEPT,
      List.getElem?_cons_zero, List.getElem?_cons_succ]

/-- C5 counterexample: on the 2-element series [1, 2] with `n_lags = 4`,
`get_lags` returns [2, 2, 2, 2] — four copies of the most recent value,
discarding the older available value — not [2, 1, 1, 1], the available
real values padded with the oldest available value. -/
theorem C5_counterexample :
    get_lags [1, 2] 4 = [2, 2, 2, 2] ∧ get_lags [1, 2] 4 ≠ [2, 1, 1, 1] := by
  constructor <;> decide

/-- C5 amended: for every nonempty series with fewer than `n` values,
`get_lags` returns `n` copies of the most recent (last) value,
discarding the older available values; for every series with at least
`n` values it returns the last `n` values most-recent-first with no
padding. -/
theorem C5_amended_get_lags (series : List ℚ) (n : ℕ) (hne : series ≠ []) :
    (series.length < n →
      get_lags series n = List.replicate n (series.getLastD 0)) ∧
    (n ≤ series.length →
      get_lags series n = series.reverse.take n) := by
  constructor
  · intro hlt
    have hnle : ¬ n ≤ series.length := by omega
    have hlast : series.getLast? = some (series.getLastD 0) := by
      cases series with
      | nil => exact absurd rfl hne
      | cons a t => simp [List.getLast?_cons, List.getLastD_cons]
    rw [get_lags, if_neg hnle, hlast]
  · intro hle
    have h2 : (series.reverse.take n).reverse = series.drop (series.length - n) := by
      rw [List.reverse_take]
      simp
    have h3 : series.reverse.take n = (series.drop (series.length - n)).reverse := by
      rw [← h2, List.reverse_reverse]
    rw [get_lags, if_pos hle, h3]

/-- Witness for C5 amended: series [1, 2] with `n = 4` (padding branch)
and with `n = 2` (no-padding branch). -/
theorem C5_amended_get_lags_witness :
    ((([1, 2] : List ℚ).length < 4 →
      get_lags [1, 2] 4 = List.replicate 4 (([1, 2] : List ℚ).getLastD 0)) ∧
    (4 ≤ ([1, 2] : List ℚ).length →
      get_lags [1, 2] 4 = ([1, 2] : List ℚ).reverse.take 4)) ∧
    ((([1, 2] : List ℚ).length < 2 →
      get_lags [1, 2] 2 = List.replicate 2 (([1, 2] : List ℚ).getLastD 0)) ∧
    (2 ≤ ([1, 2] : List ℚ).length →
      get_lags [1, 2] 2 = ([1, 2] : List ℚ).reverse.take 2)) :=
  ⟨C5_amended_get_lags [1, 2] 4 (by simp), C5_amended_get_lags [1, 2] 2 (by simp)⟩

/-- C7: for any initial lag vectors the loop terminates after emitting
exactly 6 rows, one per month ahead h = 1..6 in increasing order, at
dates 7..12, and the emitted sequence is deterministic: equal initial
lag vectors give identical row sequences. -/
theorem C7_six_deterministic_emissions (s p t q : List ℚ)
    (hs : s = t) (hp : p = q) :
    (forecastRows s p).length = 6 ∧
    (forecastRows s p).map Row.horizon = [1, 2, 3, 4, 5, 6] ∧
    (forecastRows s p).map Row.date = [7, 8, 9, 10, 11, 12] ∧
    forecastRows s p = forecastRows t q := by
  subst hs; subst hp
  exact ⟨forecastRows_length s p, forecastRows_map_horizon s p,
    forecastRows_map_date s p, rfl⟩

/-- Witness for C7 at concrete equal initial lag vectors. -/
theorem C7_six_deterministic_emissions_witness :
    (forecastRows [5] [12] ).length = 6 ∧
    (forecastRows [5] [12]).map Row.horizon = [1, 2, 3, 4, 5, 6] ∧
    (forecastRows [5] [12]).map Row.date = [7, 8, 9, 10, 11, 12] ∧
    forecastRows [5] [12] = forecastRows [5] [12] :=
  C7_six_deterministic_emissions [5] [12] [5] [12] rfl rfl

/-- C4: every emitted forecast row carries bounds `value ∓ 1.96 * (0.3 * sqrt h)`,
the band is symmetric around the point forecast, its width equals
`2 * 1.96 * (0.3 * sqrt h)`, and the width strictly widens as the
horizon increases within 1..6. -/
theorem C4_uncertainty_band (s p : List ℚ) (r : Row) (h1 h2 : ℕ)
    (hr : r ∈ forecastRows s p) (hh1 : 1 ≤ h1) (hlt : h1 < h2) (hh2 : h2 ≤ 6) :
    r.lower_bound = some (lowerBound r.inflation r.horizon) ∧
    r.upper_bound = some (upperBound r.inflation r.horizon) ∧
    upperBound r.inflation r.horizon - (r.inflation : ℝ)
      = (r.inflation : ℝ) - lowerBound r.inflation r.horizon ∧
    upperBound r.inflation r.horizon - lowerBound r.inflation r.horizon
      = 2 * 1.96 * (0.3 * Real.sqrt r.horizon) ∧
    upperBound 0 h1 - lowerBound 0 h1 < upperBound 0 h2 - lowerBound 0 h2 := by
  simp only [forecastRows] at hr
  obtain ⟨b1, b2, _, _, _⟩ := forecastLoop_mem _ 6 1 _ _ r hr
  refine ⟨b1, b2, ?_, ?_, ?_⟩
  · simp only [upperBound, lowerBound, uncertainty]
    ring
  · simp only [upperBound, lowerBound, uncertainty]
    ring
  · have hsq : Real.sqrt h1 < Real.sqrt h2 := by
      apply Real.sqrt_lt_sqrt (by positivity)
      exact_mod_cast hlt
    simp only [upperBound, lowerBound, uncertainty, Rat.cast_zero]
    nlinarith [hsq]

/-- Witness for C4: the first row emitted from empty initial lag vectors
(forecast value 0.5 at horizon 1), with horizons 1 and 2. -/
theorem C4_uncertainty_band_witness :
    Row.mk 7 0.5 (some (lowerBound 0.5 1)) (some (upperBound 0.5 1))
        RowType.forecast 1 ∈ forecastRows [] [] ∧
    ((Row.mk 7 0.5 (some (lowerBound 0.5 1)) (some (upperBound 0.5 1))
        RowType.forecast 1).lower_bound
      = some (lowerBound 0.5 1) ∧
    (Row.mk 7 0.5 (some (lowerBound 0.5 1)) (some (upperBound 0.5 1))
        RowType.forecast 1).upper_bound
      = some (upperBound 0.5 1) ∧
    upperBound 0.5 1 - ((0.5 : ℚ) : ℝ) = ((0.5 : ℚ) : ℝ) - lowerBound 0.5 1 ∧
    upperBound 0.5 1 - lowerBound 0.5 1 = 2 * 1.96 * (0.3 * Real.sqrt ((1 : ℕ) : ℝ)) ∧
    upperBound 0 1 - lowerBound 0 1 < upperBound 0 2 - lowerBound 0 2) := by
  have hmem : Row.mk 7 0.5 (some (lowerBound 0.5 1)) (some (upperBound 0.5 1))
      RowType.forecast 1 ∈ forecastRows [] [] := by
    norm_num [forecastRows, forecastLoop, calculate_forecast,
      SENTIMENT_WEIGHTS, INFLATION_WEIGHTS, SCALE_FACTOR, INTERCEPT, LAST_DATE]
  exact ⟨hmem, C4_uncertainty_band [] [] _ 1 2 hmem (by norm_num) (by norm_num) (by norm_num)⟩

/-- The date comparison used for sorting rows is total. -/
instance : IsTotal Row (fun a b => a.date ≤ b.date) :=
  ⟨fun a b => Nat.le_total a.date b.date⟩

/-- The date comparison used for sorting rows is transitive. -/
instance : IsTrans Row (fun a b => a.date ≤ b.date) :=
  ⟨fun _ _ _ hab hbc => Nat.le_trans hab hbc⟩

/-- The combined series is a permutation of historical plus forecast rows. -/
theorem combined_perm (ss : List ℚ) :
    (combined ss).Perm
      (actualRows ++ forecastRows (get_lags ss 9) (get_lags MONTHLY_INFLATION 4)) := by
  simp only [combined, sortByDate]
  exact List.perm_insertionSort _ _

/-- The dates of the combined series are a permutation of months 0..12. -/
theorem combined_map_date_perm (ss : List ℚ) :
    ((combined ss).map Row.date).Perm [0, 1, 2, 3, 4, 5, 6, 7, 8, 9, 10, 11, 12] := by
  have h := (combined_perm ss).map Row.date
  rw [List.map_append, actualRows_map_date, forecastRows_map_date] at h
  simpa using h

/-- C8: in the combined output series (historical plus forecast rows,
sorted by date) there is exactly one observation per date, the
materialized dates are strictly increasing, every forecast row has
non-null bounds and horizon at least 1, and every actual row has
horizon 0. -/
theorem C8_combined_invariants (sentSeries : List ℚ) :
    List.Chain' (fun a b : ℕ => a < b) ((combined sentSeries).map Row.date) ∧
    ((combined sentSeries).map Row.date).Nodup ∧
    (∀ r ∈ combined sentSeries, r.type = RowType.forecast →
      r.lower_bound.isSome ∧ r.upper_bound.isSome ∧ 1 ≤ r.horizon) ∧
    (∀ r ∈ combined sentSeries, r.type = RowType.actual → r.horizon = 0) := by
  have hnd : ((combined sentSeries).map Row.date).Nodup :=
    (combined_map_date_perm sentSeries).nodup_iff.mpr (by decide)
  have hsorted : List.Sorted (fun a b : Row => a.date ≤ b.date) (combined sentSeries) := by
    simp only [combined, sortByDate]
    exact List.sorted_insertionSort _ _
  have hdates : List.Pairwise (fun a b : ℕ => a ≤ b) ((combined sentSeries).map Row.date) :=
    List.Pairwise.map Row.date (fun _ _ h => h) hsorted
  have hnd' : List.Pairwise (fun a b : ℕ => a ≠ b) ((combined sentSeries).map Row.date) := hnd
  have hlt : List.Pairwise (fun a b : ℕ => a < b) ((combined sentSeries).map Row.date) :=
    (hdates.and hnd').imp (fun h => lt_of_le_of_ne h.1 h.2)
  refine ⟨hlt.chain', hnd, ?_, ?_⟩
  · intro r hr htype
    have hmem := (combined_perm sentSeries).mem_iff.mp hr
    rw [List.mem_append] at hmem
    rcases hmem with hm | hm
    · have hact := (actualRows_mem r hm).1
      rw [hact] at htype
      exact absurd htype (by simp)
    · simp only [forecastRows] at hm
      obtain ⟨b1, b2, _, b4, _⟩ := forecastLoop_mem _ 6 1 _ _ r hm
      exact ⟨by rw [b1]; rfl, by rw [b2]; rfl, b4⟩
  · intro r hr htype
    have hmem := (combined_perm sentSeries).mem_iff.mp hr
    rw [List.mem_append] at hmem
    rcases hmem with hm | hm
    · exact (actualRows_mem r hm).2.1
    · simp only [forecastRows] at hm
      have hf := (forecastLoop_mem _ 6 1 _ _ r hm).2.2.1
      rw [hf] at htype
      exact absurd htype (by simp)

end EgyptForecast
